import Mathlib

/-
Shallow embedding of src/runtime/hetdesrun/persistence/dbmodels.py:
the SQLAlchemy table declarations TransformationRevisionDBModel and
NestingDBModel (with their check/unique/primary-key/foreign-key
constraints), the pydantic FilterParams model, and the Descendant tuple.

UUID columns are modelled as Nat, DateTime columns as Nat, JSON columns
as an explicit Json value type in which `Json.null` is the JSON null
literal and SQL NULL is `Option.none`.
-/

namespace HdDbmodels

/-- Modelled from the spec: the lifecycle enum `State` from `hetdesrun.utils`
(imported by dbmodels.py but not under src/); per spec section 3,
`state ∈ {DRAFT, RELEASED, DISABLED}`. -/
inductive State where
  | DRAFT
  | RELEASED
  | DISABLED
  deriving DecidableEq, Repr

/-- Modelled from the spec: the kind discriminator enum `Type` from
`hetdesrun.utils` (imported by dbmodels.py but not under src/); per spec
section 3, `type ∈ {COMPONENT, WORKFLOW}`. Named `TrafoType` because `Type`
is a reserved word in Lean. -/
inductive TrafoType where
  | COMPONENT
  | WORKFLOW
  deriving DecidableEq, Repr

/-- JSON values as stored in a JSON column. `Json.null` is the JSON null
literal; SQL NULL is represented by `Option.none` at the column level.
Composite JSON values are collapsed to an opaque string payload: the
embedded claims never inspect JSON structure beyond null-ness. -/
inductive Json where
  | null
  | boolean (b : Bool)
  | number (n : Int)
  | string (s : String)
  deriving DecidableEq, Repr

/-- Shallow embedding of the row type of the `transformation_revisions`
table (class TransformationRevisionDBModel, dbmodels.py lines 64-85).
Nullable columns are Option-typed; non-nullable ones are plain. -/
structure TransformationRevisionDBModel where
  id : Nat
  revision_group_id : Nat
  name : String
  description : String
  category : String
  version_tag : String
  state : State
  type : TrafoType
  documentation : String
  workflow_content : Option Json
  component_code : Option String
  io_interface : Json
  test_wiring : Json
  released_timestamp : Option Nat
  disabled_timestamp : Option Nat
  deriving DecidableEq, Repr

/-- The check constraint
`_exactly_one_of_component_code_or_workflow_content_null_cc`
(dbmodels.py lines 93-102):
`(CASE WHEN component_code IS NULL THEN 0 ELSE 1) +
 (CASE WHEN workflow_content IS NULL THEN 0 ELSE 1) = 1`. -/
def exactlyOneOfComponentCodeOrWorkflowContentNullCc
    (r : TransformationRevisionDBModel) : Prop :=
  ((if r.component_code = none then 0 else 1)
    + (if r.workflow_content = none then 0 else 1) : Int) = 1

instance (r : TransformationRevisionDBModel) :
    Decidable (exactlyOneOfComponentCodeOrWorkflowContentNullCc r) := by
  unfold exactlyOneOfComponentCodeOrWorkflowContentNullCc
  infer_instance

/-- Shallow embedding of the row type of the `nestings` table
(class NestingDBModel, dbmodels.py lines 106-137). The primary key
columns are workflow_id, via_operator_id, depth and nested_operator_id;
depth is an SQL Integer, hence Int. -/
structure NestingDBModel where
  workflow_id : Nat
  via_transformation_id : Nat
  via_operator_id : Nat
  depth : Int
  nested_transformation_id : Nat
  nested_operator_id : Nat
  deriving DecidableEq, Repr

/-- The check constraint `_depth_natural_number_cc`
(dbmodels.py lines 151-154): `depth > 0`. -/
def depthNaturalNumberCc (n : NestingDBModel) : Prop :=
  n.depth > 0

instance (n : NestingDBModel) : Decidable (depthNaturalNumberCc n) := by
  unfold depthNaturalNumberCc
  infer_instance

/-- The check constraint `_via_ids_equal_nested_ids_for_direct_nesting_cc`
(dbmodels.py lines 155-166):
`(CASE WHEN depth > 1 THEN 1 ELSE 0)
 + (CASE WHEN via_transformation_id = nested_transformation_id THEN 1 ELSE 0)
   * (CASE WHEN via_operator_id = nested_operator_id THEN 1 ELSE 0) = 1`. -/
def viaIdsEqualNestedIdsForDirectNestingCc (n : NestingDBModel) : Prop :=
  ((if n.depth > 1 then 1 else 0)
    + (if n.via_transformation_id = n.nested_transformation_id then 1 else 0)
      * (if n.via_operator_id = n.nested_operator_id then 1 else 0) : Int) = 1

instance (n : NestingDBModel) :
    Decidable (viaIdsEqualNestedIdsForDirectNestingCc n) := by
  unfold viaIdsEqualNestedIdsForDirectNestingCc
  infer_instance

/-- The primary-key tuple of the `nestings` table: the four columns declared
with primary_key=True (dbmodels.py lines 109-137). -/
def nestingPrimaryKey (n : NestingDBModel) : Nat × Nat × Int × Nat :=
  (n.workflow_id, n.via_operator_id, n.depth, n.nested_operator_id)

/-- A database state: the contents of the two tables declared in
dbmodels.py. -/
structure DBState where
  transformation_revisions : List TransformationRevisionDBModel
  nestings : List NestingDBModel
  deriving DecidableEq, Repr

/-- All constraints declared on the two tables in dbmodels.py, as a
predicate on a database state: per-row check constraints, the primary keys
of both tables, the unique constraint `_revision_group_id_plus_version_tag_uc`
(lines 88-92), and the three foreign keys of `nestings` into
`transformation_revisions.id` (lines 111, 117, 129). -/
def ValidDBState (db : DBState) : Prop :=
  (∀ r ∈ db.transformation_revisions,
      exactlyOneOfComponentCodeOrWorkflowContentNullCc r)
    ∧ (∀ r1 ∈ db.transformation_revisions, ∀ r2 ∈ db.transformation_revisions,
        r1.id = r2.id → r1 = r2)
    ∧ (∀ r1 ∈ db.transformation_revisions, ∀ r2 ∈ db.transformation_revisions,
        r1.revision_group_id = r2.revision_group_id →
          r1.version_tag = r2.version_tag → r1 = r2)
    ∧ (∀ n ∈ db.nestings, depthNaturalNumberCc n)
    ∧ (∀ n ∈ db.nestings, viaIdsEqualNestedIdsForDirectNestingCc n)
    ∧ (∀ n1 ∈ db.nestings, ∀ n2 ∈ db.nestings,
        nestingPrimaryKey n1 = nestingPrimaryKey n2 → n1 = n2)
    ∧ (∀ n ∈ db.nestings,
        (∃ r ∈ db.transformation_revisions, r.id = n.workflow_id)
          ∧ (∃ r ∈ db.transformation_revisions, r.id = n.via_transformation_id)
          ∧ (∃ r ∈ db.transformation_revisions, r.id = n.nested_transformation_id))

instance (db : DBState) : Decidable (ValidDBState db) := by
  unfold ValidDBState
  infer_instance

/-- Shallow embedding of the pydantic model FilterParams
(dbmodels.py lines 25-61): six optional predicate fields and three
boolean flags. -/
structure FilterParams where
  type : Option TrafoType
  state : Option State
  category : Option String
  revision_group_id : Option Nat
  ids : Option (List Nat)
  names : Option (List String)
  include_deprecated : Bool
  include_dependencies : Bool
  unused : Bool
  deriving DecidableEq, Repr

/-- Constructing `FilterParams()` with no arguments: every predicate field
takes its pydantic `Field` default `None`, and the flags take their
defaults `True`, `False`, `False` (dbmodels.py lines 27-61). -/
def FilterParams.default : FilterParams where
  type := none
  state := none
  category := none
  revision_group_id := none
  ids := none
  names := none
  include_deprecated := true
  include_dependencies := false
  unused := false

/-- Modelled from the spec: the constrained-string type `NonEmptyValidStr`
from `hetdesrun.models.code` is imported by dbmodels.py but not under src/;
as the entry type of `FilterParams.names` it requires each entry to be a
non-empty string. -/
def isNonEmptyValidStr (s : String) : Bool :=
  decide (1 ≤ s.length)

/-- Modelled from the spec: pydantic validation at FilterParams construction.
The validators behind `NonEmptyValidStr` live in `hetdesrun.models.code`,
which is not under src/; what is modelled is that an entry of `names` failing
`isNonEmptyValidStr` makes construction raise a validation error instead of
producing a model instance. -/
def mkFilterParams (ty : Option TrafoType) (st : Option State)
    (category : Option String) (revision_group_id : Option Nat)
    (ids : Option (List Nat)) (names : Option (List String))
    (include_deprecated include_dependencies unused : Bool) :
    Except String FilterParams :=
  match names with
  | some ns =>
      if ns.all isNonEmptyValidStr then
        Except.ok
          { type := ty, state := st, category := category
            revision_group_id := revision_group_id, ids := ids
            names := some ns, include_deprecated := include_deprecated
            include_dependencies := include_dependencies, unused := unused }
      else
        Except.error "validation error: names entries must be non-empty valid strings"
  | none =>
      Except.ok
        { type := ty, state := st, category := category
          revision_group_id := revision_group_id, ids := ids
          names := none, include_deprecated := include_deprecated
          include_dependencies := include_dependencies, unused := unused }

/-- Modelled from the spec: the Phase-1 base predicate match of the
Filter/Query Engine (spec section 4.3), whose implementation is not under
src/. A revision matches iff every specified predicate holds; unspecified
predicates impose no constraint; if `state` is unspecified and
`include_deprecated` is false, DISABLED revisions are excluded. -/
def matchesFilter (fp : FilterParams) (r : TransformationRevisionDBModel) : Bool :=
  (match fp.type with | none => true | some t => r.type == t)
    && (match fp.state with | none => true | some s => r.state == s)
    && (match fp.category with | none => true | some c => r.category == c)
    && (match fp.revision_group_id with
        | none => true
        | some g => r.revision_group_id == g)
    && (match fp.ids with | none => true | some l => l.contains r.id)
    && (match fp.names with | none => true | some l => l.contains r.name)
    && (match fp.state with
        | none => fp.include_deprecated || !(r.state == State.DISABLED)
        | some _ => true)

/-- Shallow embedding of SQLAlchemy's JSON column bind behavior with the
`none_as_null` parameter: on write, a Python `None` (the unique Python
representation of JSON null, modelled as `Option.none`) is stored as SQL
NULL when `none_as_null` is true, and as the JSON null literal otherwise;
any other value is stored unchanged. -/
def jsonColumnBind (noneAsNull : Bool) (v : Option Json) : Option Json :=
  match v with
  | none => if noneAsNull then none else some Json.null
  | some j => some j

/-- The bind behavior of the `workflow_content` column, declared as
`JSON(none_as_null=True)` (dbmodels.py lines 78-80). -/
def workflowContentBind : Option Json → Option Json :=
  jsonColumnBind true

/-- Shallow embedding of the NamedTuple Descendant
(dbmodels.py lines 170-173). -/
structure Descendant where
  depth : Int
  transformation_id : Nat
  operator_id : Nat
  deriving DecidableEq, Repr

/- Example database states used by the witness and counterexample
theorems. -/

/-- A stored COMPONENT revision: component_code set, workflow_content SQL
NULL. -/
def exampleComponentRow : TransformationRevisionDBModel where
  id := 1
  revision_group_id := 10
  name := "c"
  description := "d"
  category := "cat"
  version_tag := "1.0.0"
  state := State.RELEASED
  type := TrafoType.COMPONENT
  documentation := "doc"
  workflow_content := none
  component_code := some "code"
  io_interface := Json.string "io"
  test_wiring := Json.string "tw"
  released_timestamp := some 100
  disabled_timestamp := none

/-- A stored WORKFLOW revision: workflow_content set, component_code SQL
NULL. -/
def exampleWorkflowRow : TransformationRevisionDBModel where
  id := 2
  revision_group_id := 20
  name := "w"
  description := "d"
  category := "cat"
  version_tag := "1.0.0"
  state := State.RELEASED
  type := TrafoType.WORKFLOW
  documentation := "doc"
  workflow_content := some (Json.string "wf")
  component_code := none
  io_interface := Json.string "io"
  test_wiring := Json.string "tw"
  released_timestamp := some 100
  disabled_timestamp := none

/-- A depth-1 nesting row of the example workflow: the component is its
direct child, so via identity equals nested identity. -/
def exampleNestingRow : NestingDBModel where
  workflow_id := 2
  via_transformation_id := 1
  via_operator_id := 5
  depth := 1
  nested_transformation_id := 1
  nested_operator_id := 5

/-- An example database state satisfying every declared constraint. -/
def exampleDB : DBState where
  transformation_revisions := [exampleComponentRow, exampleWorkflowRow]
  nestings := [exampleNestingRow]

/- Theorems for the claims. -/

/-- Claim C1: for every stored TransformationRevision, exactly one of
component_code and workflow_content is non-null — never both non-null,
never both null. -/
theorem exactly_one_content_nonnull (db : DBState) (h : ValidDBState db)
    (r : TransformationRevisionDBModel)
    (hr : r ∈ db.transformation_revisions) :
    (r.component_code ≠ none ∧ r.workflow_content = none) ∨
      (r.component_code = none ∧ r.workflow_content ≠ none) := by
  have hc := h.1 r hr
  unfold exactlyOneOfComponentCodeOrWorkflowContentNullCc at hc
  by_cases h1 : r.component_code = none <;>
    by_cases h2 : r.workflow_content = none <;>
      simp [h1, h2] at hc ⊢

/-- Witness for C1: the theorem applied to a concrete valid database state
containing a component revision. -/
theorem exactly_one_content_nonnull_witness :
    ValidDBState exampleDB ∧
      exampleComponentRow ∈ exampleDB.transformation_revisions ∧
      ((exampleComponentRow.component_code ≠ none ∧
          exampleComponentRow.workflow_content = none) ∨
        (exampleComponentRow.component_code = none ∧
          exampleComponentRow.workflow_content ≠ none)) :=
  ⟨by decide, by decide,
    exactly_one_content_nonnull exampleDB (by decide) exampleComponentRow
      (by decide)⟩

/-- Claim C2: for every stored NestingRow, depth = 1 iff via identity equals
nested identity (both the transformation id pair and the operator id pair);
hence whenever depth > 1 at least one of the two pairs differs. -/
theorem depth_one_iff_via_eq_nested (db : DBState) (h : ValidDBState db)
    (n : NestingDBModel) (hn : n ∈ db.nestings) :
    n.depth = 1 ↔
      (n.via_transformation_id = n.nested_transformation_id ∧
        n.via_operator_id = n.nested_operator_id) := by
  have hd := h.2.2.2.1 n hn
  have hv := h.2.2.2.2.1 n hn
  unfold depthNaturalNumberCc at hd
  unfold viaIdsEqualNestedIdsForDirectNestingCc at hv
  by_cases hgt : n.depth > 1 <;>
    by_cases ht : n.via_transformation_id = n.nested_transformation_id <;>
      by_cases ho : n.via_operator_id = n.nested_operator_id <;>
        simp [hgt, ht, ho] at hv ⊢ <;> omega

/-- Witness for C2: the theorem applied to a concrete valid database state
containing a depth-1 nesting row. -/
theorem depth_one_iff_via_eq_nested_witness :
    ValidDBState exampleDB ∧ exampleNestingRow ∈ exampleDB.nestings ∧
      (exampleNestingRow.depth = 1 ↔
        (exampleNestingRow.via_transformation_id =
            exampleNestingRow.nested_transformation_id ∧
          exampleNestingRow.via_operator_id =
            exampleNestingRow.nested_operator_id)) :=
  ⟨by decide, by decide,
    depth_one_iff_via_eq_nested exampleDB (by decide) exampleNestingRow
      (by decide)⟩

/-- Claim C3: distinct stored TransformationRevisions never share both
revision_group_id and version_tag: at most one revision per
(revision_group_id, version_tag) pair. -/
theorem revision_group_version_tag_unique (db : DBState) (h : ValidDBState db)
    (r1 : TransformationRevisionDBModel)
    (h1 : r1 ∈ db.transformation_revisions)
    (r2 : TransformationRevisionDBModel)
    (h2 : r2 ∈ db.transformation_revisions) (hne : r1 ≠ r2) :
    ¬(r1.revision_group_id = r2.revision_group_id ∧
        r1.version_tag = r2.version_tag) := by
  rintro ⟨hg, hv⟩
  exact hne (h.2.2.1 r1 h1 r2 h2 hg hv)

/-- Witness for C3: the theorem applied to the two distinct rows of the
concrete valid database state. -/
theorem revision_group_version_tag_unique_witness :
    ValidDBState exampleDB ∧
      exampleComponentRow ∈ exampleDB.transformation_revisions ∧
      exampleWorkflowRow ∈ exampleDB.transformation_revisions ∧
      exampleComponentRow ≠ exampleWorkflowRow ∧
      ¬(exampleComponentRow.revision_group_id =
            exampleWorkflowRow.revision_group_id ∧
          exampleComponentRow.version_tag = exampleWorkflowRow.version_tag) :=
  ⟨by decide, by decide, by decide, by decide,
    revision_group_version_tag_unique exampleDB (by decide)
      exampleComponentRow (by decide) exampleWorkflowRow (by decide)
      (by decide)⟩

/-- The per-row property asserted by claim C4: the type discriminator
determines which content column is present, with component_code non-empty
for COMPONENT and workflow_content non-null for WORKFLOW. -/
def typeDeterminesContent (r : TransformationRevisionDBModel) : Prop :=
  (r.type = TrafoType.COMPONENT →
      r.component_code ≠ none ∧ r.component_code ≠ some "")
    ∧ (r.type = TrafoType.WORKFLOW → r.workflow_content ≠ none)

instance (r : TransformationRevisionDBModel) :
    Decidable (typeDeterminesContent r) := by
  unfold typeDeterminesContent
  infer_instance

/-- A row accepted by every declared constraint yet violating C4: its type
is COMPONENT while component_code is SQL NULL and workflow_content is
set. -/
def c4BadRow : TransformationRevisionDBModel where
  id := 3
  revision_group_id := 30
  name := "bad"
  description := "d"
  category := "cat"
  version_tag := "1.0.0"
  state := State.DRAFT
  type := TrafoType.COMPONENT
  documentation := "doc"
  workflow_content := some (Json.string "wf")
  component_code := none
  io_interface := Json.string "io"
  test_wiring := Json.string "tw"
  released_timestamp := none
  disabled_timestamp := none

/-- A database state containing only c4BadRow; it satisfies every
constraint declared in dbmodels.py. -/
def c4BadDB : DBState where
  transformation_revisions := [c4BadRow]
  nestings := []

/-- Counterexample to C4: a stored revision of type COMPONENT whose
component_code is SQL NULL (its workflow_content being set instead) passes
every declared constraint, so the schema does not make the type
discriminator determine which content column is present. -/
theorem type_determines_content_counterexample :
    ValidDBState c4BadDB ∧ c4BadRow ∈ c4BadDB.transformation_revisions ∧
      c4BadRow.type = TrafoType.COMPONENT ∧ ¬typeDeterminesContent c4BadRow := by
  decide

/-- Claim C4 as amended: for every stored TransformationRevision exactly one
of component_code and workflow_content is non-null (workflow_content is null
exactly when component_code is non-null), but the schema does not couple
this to the type discriminator, nor does it require component_code to be
non-empty. -/
theorem content_nonnull_iff (db : DBState) (h : ValidDBState db)
    (r : TransformationRevisionDBModel)
    (hr : r ∈ db.transformation_revisions) :
    r.workflow_content = none ↔ r.component_code ≠ none := by
  have hc := h.1 r hr
  unfold exactlyOneOfComponentCodeOrWorkflowContentNullCc at hc
  by_cases h1 : r.component_code = none <;>
    by_cases h2 : r.workflow_content = none <;>
      simp [h1, h2] at hc ⊢

/-- Witness for the amended C4: the theorem applied to the concrete
workflow row of the valid example database. -/
theorem content_nonnull_iff_witness :
    ValidDBState exampleDB ∧
      exampleWorkflowRow ∈ exampleDB.transformation_revisions ∧
      (exampleWorkflowRow.workflow_content = none ↔
        exampleWorkflowRow.component_code ≠ none) :=
  ⟨by decide, by decide,
    content_nonnull_iff exampleDB (by decide) exampleWorkflowRow (by decide)⟩

/-- Claim C5: the tuple (workflow_id, via_operator_id, depth,
nested_operator_id) is the primary key of the nestings table: two stored
rows agreeing on all four fields are the same row, so
via_transformation_id and nested_transformation_id are functionally
determined by that tuple. -/
theorem nesting_primary_key_unique (db : DBState) (h : ValidDBState db)
    (n1 : NestingDBModel) (h1 : n1 ∈ db.nestings)
    (n2 : NestingDBModel) (h2 : n2 ∈ db.nestings)
    (hw : n1.workflow_id = n2.workflow_id)
    (hvo : n1.via_operator_id = n2.via_operator_id)
    (hd : n1.depth = n2.depth)
    (hno : n1.nested_operator_id = n2.nested_operator_id) :
    n1.via_transformation_id = n2.via_transformation_id ∧
      n1.nested_transformation_id = n2.nested_transformation_id ∧ n1 = n2 := by
  have heq : n1 = n2 :=
    h.2.2.2.2.2.1 n1 h1 n2 h2
      (by simp [nestingPrimaryKey, hw, hvo, hd, hno])
  subst heq
  exact ⟨rfl, rfl, rfl⟩

/-- Witness for C5: the theorem applied to the concrete nesting row of the
valid example database (compared with itself). -/
theorem nesting_primary_key_unique_witness :
    ValidDBState exampleDB ∧ exampleNestingRow ∈ exampleDB.nestings ∧
      (exampleNestingRow.via_transformation_id =
          exampleNestingRow.via_transformation_id ∧
        exampleNestingRow.nested_transformation_id =
          exampleNestingRow.nested_transformation_id ∧
        exampleNestingRow = exampleNestingRow) :=
  ⟨by decide, by decide,
    nesting_primary_key_unique exampleDB (by decide) exampleNestingRow
      (by decide) exampleNestingRow (by decide) rfl rfl rfl rfl⟩

/-- Claim C6: for every stored NestingRow, depth is a positive integer. -/
theorem nesting_depth_positive (db : DBState) (h : ValidDBState db)
    (n : NestingDBModel) (hn : n ∈ db.nestings) :
    1 ≤ n.depth := by
  have hd := h.2.2.2.1 n hn
  unfold depthNaturalNumberCc at hd
  omega

/-- Witness for C6: the theorem applied to the concrete nesting row of the
valid example database. -/
theorem nesting_depth_positive_witness :
    ValidDBState exampleDB ∧ exampleNestingRow ∈ exampleDB.nestings ∧
      1 ≤ exampleNestingRow.depth :=
  ⟨by decide, by decide,
    nesting_depth_positive exampleDB (by decide) exampleNestingRow
      (by decide)⟩

/-- Claim C7: FilterParams constructed with no arguments has
include_deprecated true, include_dependencies false, unused false, every
predicate field None, and imposes no constraint: every revision matches the
default filter. -/
theorem filter_params_default_unconstrained :
    FilterParams.default.type = none ∧
      FilterParams.default.state = none ∧
      FilterParams.default.category = none ∧
      FilterParams.default.revision_group_id = none ∧
      FilterParams.default.ids = none ∧
      FilterParams.default.names = none ∧
      FilterParams.default.include_deprecated = true ∧
      FilterParams.default.include_dependencies = false ∧
      FilterParams.default.unused = false ∧
      ∀ r : TransformationRevisionDBModel,
        matchesFilter FilterParams.default r = true := by
  refine ⟨rfl, rfl, rfl, rfl, rfl, rfl, rfl, rfl, rfl, fun r => ?_⟩
  rfl

/-- Claim C8: every stored NestingRow's workflow_id, via_transformation_id
and nested_transformation_id each reference the id of an existing stored
TransformationRevision. -/
theorem nesting_foreign_keys_resolve (db : DBState) (h : ValidDBState db)
    (n : NestingDBModel) (hn : n ∈ db.nestings) :
    (∃ r ∈ db.transformation_revisions, r.id = n.workflow_id) ∧
      (∃ r ∈ db.transformation_revisions, r.id = n.via_transformation_id) ∧
      (∃ r ∈ db.transformation_revisions, r.id = n.nested_transformation_id) :=
  h.2.2.2.2.2.2 n hn

/-- Witness for C8: the theorem applied to the concrete nesting row of the
valid example database. -/
theorem nesting_foreign_keys_resolve_witness :
    ValidDBState exampleDB ∧ exampleNestingRow ∈ exampleDB.nestings ∧
      ((∃ r ∈ exampleDB.transformation_revisions,
          r.id = exampleNestingRow.workflow_id) ∧
        (∃ r ∈ exampleDB.transformation_revisions,
          r.id = exampleNestingRow.via_transformation_id) ∧
        (∃ r ∈ exampleDB.transformation_revisions,
          r.id = exampleNestingRow.nested_transformation_id)) :=
  ⟨by decide, by decide,
    nesting_foreign_keys_resolve exampleDB (by decide) exampleNestingRow
      (by decide)⟩

/-- Claim C9: FilterParams construction rejects a names list containing an
empty string with a validation error instead of accepting it. -/
theorem filter_params_rejects_empty_name :
    mkFilterParams none none none none none (some [""]) true false false =
      Except.error
        "validation error: names entries must be non-empty valid strings" :=
  rfl

/-- Claim C10: with none_as_null=True on workflow_content, a Python
None/JSON-null value binds to SQL NULL (hence counts as absent for the
exactly-one-content check), the stored column is NULL exactly for that
input, and no stored workflow_content is ever the JSON null literal
distinct from a missing value. -/
theorem workflow_content_none_as_null (v : Option Json)
    (hv : v ≠ some Json.null) :
    workflowContentBind none = none ∧
      (workflowContentBind v = none ↔ v = none) ∧
      workflowContentBind v ≠ some Json.null := by
  refine ⟨rfl, ?_, ?_⟩ <;> cases v <;>
    simp_all [workflowContentBind, jsonColumnBind]

/-- Witness for C10: the theorem applied to a concrete non-null JSON
payload. -/
theorem workflow_content_none_as_null_witness :
    (some (Json.string "wf") : Option Json) ≠ some Json.null ∧
      (workflowContentBind none = none ∧
        (workflowContentBind (some (Json.string "wf")) = none ↔
          (some (Json.string "wf") : Option Json) = none) ∧
        workflowContentBind (some (Json.string "wf")) ≠ some Json.null) :=
  ⟨by decide,
    workflow_content_none_as_null (some (Json.string "wf")) (by decide)⟩

end HdDbmodels
